import Mathlib

/-!
Shallow embedding of the changelogger pipeline
(src/openai.ts, src/github.ts, src/types.ts) and proofs about its
specified behaviour.  External effects (the OpenAI chat call, the
octokit API calls, the git subprocess) are passed in as explicit
outcome parameters; everything else is translated directly from the
TypeScript source.
-/

/-! ## String helpers (JS `includes`, `endsWith`, `toLowerCase`) -/

/-- Char-list version of: `pat` occurs at the head of the second list. -/
def leadsWith : List Char → List Char → Bool
  | [], _ => true
  | _ :: _, [] => false
  | p :: ps, c :: cs => p == c && leadsWith ps cs

/-- Char-list version of JS `String.prototype.includes`. -/
def hasSubList (pat : List Char) : List Char → Bool
  | [] => pat.isEmpty
  | c :: cs => leadsWith pat (c :: cs) || hasSubList pat cs

/-- JS `s.includes(pat)`. -/
def hasSub (s pat : String) : Bool := hasSubList pat.toList s.toList

/-- JS `s.toLowerCase()` (ASCII, which is all the source compares). -/
def lowerStr (s : String) : String := String.mk (s.toList.map Char.toLower)

/-- JS `s.endsWith(suf)`. -/
def endsWithStr (s suf : String) : Bool :=
  leadsWith suf.toList.reverse s.toList.reverse

/-- Numeric value of a run of decimal digits (JS `parseInt` on the
capture of a `\d+` group). -/
def natOfDigits (ds : List Char) : Nat :=
  ds.foldl (fun a c => a * 10 + (c.toNat - 48)) 0

/-- Match a literal at the head of the input, returning the remainder. -/
def matchLit : List Char → List Char → Option (List Char)
  | [], rest => some rest
  | _ :: _, [] => none
  | l :: ls, c :: cs => if l == c then matchLit ls cs else none

/-- Split a char list on every occurrence of `sep`
(JS `String.prototype.split` with a one-char separator). -/
def splitOnCh (sep : Char) : List Char → List (List Char)
  | [] => [[]]
  | c :: cs =>
      match splitOnCh sep cs with
      | [] => [[c]]
      | g :: gs => if c == sep then [] :: g :: gs else (c :: g) :: gs

/-- JS `s.split(sep)` for a one-char separator. -/
def jsSplit (sep : Char) (s : String) : List String :=
  (splitOnCh sep s.toList).map String.mk

/-- JS `s.trim()`. -/
def trimJS (s : String) : String :=
  String.mk (((s.toList.dropWhile Char.isWhitespace).reverse.dropWhile
    Char.isWhitespace).reverse)

/-- JS `s.startsWith(pat)`. -/
def startsWithStr (s pat : String) : Bool := leadsWith pat.toList s.toList

/-- JS falsy test on a string (only the empty string is falsy). -/
def jsStrEmpty (s : String) : Bool := s.toList.isEmpty

/-! ## Data model (src/types.ts) -/

inductive FileStatus
  | added
  | modified
  | removed
deriving Repr, DecidableEq

structure FileChange where
  path : String
  status : FileStatus
  additions : Nat
  deletions : Nat
  patch : Option String := none
deriving Repr, DecidableEq

inductive MergeStrategy
  | squash
  | rebase
  | merge
deriving Repr, DecidableEq

structure PullRequest where
  number : Nat
  title : String
  body : Option String
  labels : List String
  files : List FileChange
  merge_strategy : MergeStrategy
  author : String
  merged_at : String
  merge_commit_sha : String
deriving Repr, DecidableEq

inductive EntryType
  | feature
  | fix
  | docs
  | breaking
  | internal
deriving Repr, DecidableEq

structure ChangelogEntry where
  type : EntryType
  description : String
  pr_number : Nat
  author : String
deriving Repr, DecidableEq

structure OpenAIResponse where
  changelog : String
  entries : List ChangelogEntry
deriving Repr, DecidableEq

/-- `EnhancedOpenAIResponse` from src/openai.ts. -/
structure EnhancedOpenAIResponse where
  changelog : String
  entries : List ChangelogEntry
  driftWarnings : List String
  suggestions : List String
  hasBreakingChanges : Bool
deriving Repr, DecidableEq

/-! ## formatChangelog (src/openai.ts lines 210-221)

The current date (`new Date().toISOString().split('T')[0]`) is passed
in as the `today` parameter. -/

def formatChangelog (today content : String) : String :=
  "# Changelog\n\n## [Unreleased] - " ++ today ++ "\n\n" ++ content ++
    "\n\n---\n*Generated by [Changelogger](https://github.com/rohansaibuddhi/changelogger) 🤖*\n"

/-! ## performHeuristicDriftDetection (src/openai.ts lines 321-386) -/

/-- Result record of the heuristic drift analyzer. -/
structure DriftAnalysis where
  warnings : List String
  suggestions : List String
  hasBreakingChanges : Bool
deriving Repr, DecidableEq

/-- File-path test `/\.(ts|js|tsx|jsx|py|go|rs|java|c|cpp)$/i`. -/
def isCodePath (p : String) : Bool :=
  ["ts", "js", "tsx", "jsx", "py", "go", "rs", "java", "c", "cpp"].any
    (fun e => endsWithStr (lowerStr p) ("." ++ e))

/-- File-path test `/\.(md|txt|rst)$/i`. -/
def isDocPath (p : String) : Bool :=
  ["md", "txt", "rst"].any (fun e => endsWithStr (lowerStr p) ("." ++ e))

/-- Predicate of the `apiChangePRs` filter. -/
def isApiChangePR (pr : PullRequest) : Bool :=
  hasSub (lowerStr pr.title) "api" ||
    (match pr.body with
     | some b => hasSub (lowerStr b) "endpoint"
     | none => false) ||
    pr.files.any (fun f => hasSub f.path "api" || hasSub f.path "router")

/-- Predicate of the `breakingPRs` filter. -/
def isBreakingPR (pr : PullRequest) : Bool :=
  hasSub (lowerStr pr.title) "breaking" ||
    (match pr.body with
     | some b => hasSub (lowerStr b) "breaking change"
     | none => false) ||
    pr.labels.any (fun l => hasSub (lowerStr l) "breaking")

/-- Predicate of the `featurePRs` filter. -/
def isFeaturePR (pr : PullRequest) : Bool :=
  pr.labels.any (fun l => hasSub (lowerStr l) "feature") ||
    hasSub (lowerStr pr.title) "add" ||
    hasSub (lowerStr pr.title) "implement"

def performHeuristicDriftDetection (prs : List PullRequest) : DriftAnalysis :=
  let codeChangePRs := prs.filter (fun pr => pr.files.any (fun f => isCodePath f.path))
  let hasDocChanges := prs.any (fun pr => pr.files.any (fun f => isDocPath f.path))
  let codeFires := codeChangePRs.length > 0 && !hasDocChanges
  let w1 : List String :=
    if codeFires then
      [toString codeChangePRs.length ++
        " PRs contain code changes but no documentation updates found"]
    else []
  let s1 : List String :=
    if codeFires then
      ["Consider updating README.md or documentation to reflect code changes"]
    else []
  let apiChangePRs := prs.filter isApiChangePR
  let w2 : List String :=
    if apiChangePRs.length > 0 then
      [toString apiChangePRs.length ++ " PRs modify APIs - documentation may need updates"]
    else []
  let s2 : List String :=
    if apiChangePRs.length > 0 then
      ["Update API documentation and examples to reflect changes"]
    else []
  let breakingPRs := prs.filter isBreakingPR
  let w3 : List String :=
    if breakingPRs.length > 0 then
      [toString breakingPRs.length ++ " PRs contain breaking changes"]
    else []
  let s3 : List String :=
    if breakingPRs.length > 0 then
      ["Add migration guide and update version compatibility documentation"]
    else []
  let featurePRs := prs.filter isFeaturePR
  let hasExamples := prs.any (fun pr =>
    pr.files.any (fun f => hasSub f.path "example" || hasSub f.path "demo"))
  let s4 : List String :=
    if featurePRs.length > 0 && !hasExamples then
      [toString featurePRs.length ++ " new features added - consider adding usage examples"]
    else []
  { warnings := w1 ++ w2 ++ w3
    suggestions := s1 ++ s2 ++ s3 ++ s4
    hasBreakingChanges := breakingPRs.length > 0 }

/-! ## generateFallbackChangelog (src/openai.ts lines 388-448) -/

/-- Predicate of the `features` bucket filter. -/
def isFeatureBucket (pr : PullRequest) : Bool :=
  pr.labels.any (fun l => hasSub (lowerStr l) "feature" || hasSub (lowerStr l) "enhancement")

/-- Predicate of the `fixes` bucket filter. -/
def isFixBucket (pr : PullRequest) : Bool :=
  pr.labels.any (fun l => hasSub (lowerStr l) "bug" || hasSub (lowerStr l) "fix")

/-- Predicate of the `docs` bucket filter. -/
def isDocsBucket (pr : PullRequest) : Bool :=
  pr.labels.any (fun l => hasSub (lowerStr l) "doc") ||
    pr.files.any (fun f => endsWithStr f.path ".md")

/-- The `others` filter: `!features.includes(pr) && !fixes.includes(pr) &&
!docs.includes(pr)`.  Since the bucket lists are filters of the same
array and JS `includes` tests object identity, membership of `pr` in a
bucket is equivalent to the bucket predicate holding of `pr`. -/
def isOtherBucket (pr : PullRequest) : Bool :=
  !isFeatureBucket pr && !isFixBucket pr && !isDocsBucket pr

/-- One `- {title} (#{number})` bullet line per PR. -/
def bulletLines (l : List PullRequest) : String :=
  String.join (l.map (fun pr => "- " ++ pr.title ++ " (#" ++ toString pr.number ++ ")\n"))

/-- The markdown body accumulated by `generateFallbackChangelog`. -/
def fallbackBody (prs : List PullRequest) : String :=
  let features := prs.filter isFeatureBucket
  let fixes := prs.filter isFixBucket
  let docs := prs.filter isDocsBucket
  let others := prs.filter isOtherBucket
  (if features.length > 0 then "## 🚀 Features\n\n" ++ bulletLines features ++ "\n" else "") ++
  (if fixes.length > 0 then "## 🐛 Bug Fixes\n\n" ++ bulletLines fixes ++ "\n" else "") ++
  (if docs.length > 0 then "## 📚 Documentation\n\n" ++ bulletLines docs ++ "\n" else "") ++
  (if others.length > 0 then "## 🔧 Other Changes\n\n" ++ bulletLines others ++ "\n" else "")

/-- The `entries` array built at the end of `generateFallbackChangelog`. -/
def fallbackEntries (prs : List PullRequest) : List ChangelogEntry :=
  ((prs.filter isFeatureBucket).map
      (fun pr => ⟨EntryType.feature, pr.title, pr.number, pr.author⟩)) ++
  ((prs.filter isFixBucket).map
      (fun pr => ⟨EntryType.fix, pr.title, pr.number, pr.author⟩)) ++
  ((prs.filter isDocsBucket).map
      (fun pr => ⟨EntryType.docs, pr.title, pr.number, pr.author⟩)) ++
  ((prs.filter isOtherBucket).map
      (fun pr => ⟨EntryType.internal, pr.title, pr.number, pr.author⟩))

def generateFallbackChangelog (prs : List PullRequest) (today : String) : OpenAIResponse :=
  { changelog := formatChangelog today (fallbackBody prs)
    entries := fallbackEntries prs }

/-! ## parseChangelogEntries (src/openai.ts lines 172-208) -/

/-- Section-heading detection updating the running `currentType`. -/
def sectionTypeOf (line : String) (cur : EntryType) : EntryType :=
  if hasSub line "🚀" || hasSub (lowerStr line) "features" then .feature
  else if hasSub line "🐛" || hasSub (lowerStr line) "bug fixes" then .fix
  else if hasSub line "📚" || hasSub (lowerStr line) "documentation" then .docs
  else if hasSub line "⚠️" || hasSub (lowerStr line) "breaking" then .breaking
  else if hasSub line "🔧" || hasSub (lowerStr line) "internal" then .internal
  else cur

/-- First match of `/\(#(\d+)\)/` in a line: scan for a literal `(#`,
a non-empty maximal digit run, then `)`.  (The digit run is maximal
because `)` is not a digit, so regex backtracking cannot shorten it.) -/
def findPrNum : List Char → Option Nat
  | [] => none
  | c :: cs =>
      if c == '(' then
        match cs with
        | '#' :: rest =>
            let ds := rest.takeWhile Char.isDigit
            let rest2 := rest.dropWhile Char.isDigit
            if 0 < ds.length && rest2.headD ' ' == ')' then some (natOfDigits ds)
            else findPrNum cs
        | _ => findPrNum cs
      else findPrNum cs

/-- JS `line.replace(/^-\s*/, '').trim()` applied to the raw line. -/
def descriptionOf (line : String) : String :=
  trimJS (String.mk (match line.toList with
    | '-' :: rest => rest.dropWhile Char.isWhitespace
    | l => l))

/-- One iteration of the `for` loop of `parseChangelogEntries`: update
the running section type, then push an entry when the line carries a
`(#N)` reference, starts (after trimming) with a dash, and `N` matches
a collected PR. -/
def parseStep (prs : List PullRequest) (st : EntryType × List ChangelogEntry)
    (line : String) : EntryType × List ChangelogEntry :=
  let cur := sectionTypeOf line st.1
  let acc :=
    match findPrNum line.toList, startsWithStr (trimJS line) "-" with
    | some prNumber, true =>
        match prs.find? (fun p => p.number == prNumber) with
        | some pr => st.2 ++ [⟨cur, descriptionOf line, prNumber, pr.author⟩]
        | none => st.2
    | _, _ => st.2
  (cur, acc)

def parseChangelogEntries (content : String) (prs : List PullRequest) : List ChangelogEntry :=
  ((jsSplit '\n' content).foldl (parseStep prs) (EntryType.internal, [])).2

/-! ## parseEnhancedResponse and the generator entry points
(src/openai.ts lines 19-104 and 286-319)

The OpenAI chat call and the JSON extraction/`JSON.parse` step are
external effects; their outcomes are passed in explicitly.  A
`ModelCall.failure` is the `catch` branch of the API call; a
`ModelCall.response parsed` is a returned text whose
`content.match(/\{[\s\S]*\}/)` + `JSON.parse` step yields `parsed`
(`none` when no JSON span is found or parsing throws). -/

/-- The JSON object recovered from a model response, with each field
optional exactly as an untyped `JSON.parse` result is. -/
structure ParsedResponse where
  changelog : Option String
  entries : Option (List ChangelogEntry)
  driftWarnings : Option (List String)
  suggestions : Option (List String)
  hasBreakingChanges : Option Bool
deriving Repr, DecidableEq

inductive ModelCall
  | failure
  | response (parsed : Option ParsedResponse)
deriving Repr, DecidableEq

def generateEnhancedFallback (prs : List PullRequest) (today : String) :
    EnhancedOpenAIResponse :=
  let fallback := generateFallbackChangelog prs today
  let driftAnalysis := performHeuristicDriftDetection prs
  { changelog := fallback.changelog
    entries := fallback.entries
    driftWarnings := driftAnalysis.warnings
    suggestions := driftAnalysis.suggestions
    hasBreakingChanges := driftAnalysis.hasBreakingChanges }

def parseEnhancedResponse (parsed : Option ParsedResponse) (prs : List PullRequest)
    (today : String) : EnhancedOpenAIResponse :=
  match parsed with
  | none => generateEnhancedFallback prs today
  | some p =>
      { changelog := formatChangelog today (p.changelog.getD "")
        entries := p.entries.getD []
        driftWarnings := p.driftWarnings.getD []
        suggestions := p.suggestions.getD []
        hasBreakingChanges := p.hasBreakingChanges.getD false }

def generateChangelogWithAnalysis (prs : List PullRequest) (today : String)
    (call : ModelCall) : EnhancedOpenAIResponse :=
  if prs.length = 0 then
    { changelog := "# Changelog\n\nNo changes found for this release."
      entries := []
      driftWarnings := []
      suggestions := []
      hasBreakingChanges := false }
  else
    match call with
    | .failure => generateEnhancedFallback prs today
    | .response parsed => parseEnhancedResponse parsed prs today

/-- Outcome of the model call in the plain `generateChangelog` path:
either the API call threw, or it returned `content`
(`response.choices[0]?.message?.content || ''`). -/
inductive BasicModelCall
  | failure
  | response (content : String)
deriving Repr, DecidableEq

def generateChangelog (prs : List PullRequest) (today : String)
    (call : BasicModelCall) : OpenAIResponse :=
  if prs.length = 0 then
    { changelog := "# Changelog\n\nNo changes found for this release."
      entries := [] }
  else
    match call with
    | .failure => generateFallbackChangelog prs today
    | .response content =>
        { changelog := formatChangelog today content
          entries := parseChangelogEntries content prs }

/-! ## detectMergeStrategy (src/github.ts lines 149-179)

The `octokit.rest.git.getCommit` call is passed in as a function from
commit sha to an `Except`-valued outcome. -/

/-- Shape of the fetched merge commit: parent shas and message. -/
structure Commit where
  parents : List String
  message : String
deriving Repr, DecidableEq

def detectMergeStrategy (title : String) (number : Nat) (mergeCommitSha : String)
    (getCommit : String → Except Unit Commit) : MergeStrategy :=
  if jsStrEmpty mergeCommitSha then .squash
  else
    match getCommit mergeCommitSha with
    | .error _ => .squash
    | .ok mergeCommit =>
        if mergeCommit.parents.length = 1 then
          if hasSub mergeCommit.message title ||
              hasSub mergeCommit.message ("#" ++ toString number) then .squash
          else .rebase
        else if mergeCommit.parents.length = 2 then .merge
        else .squash

/-! ## collectPRsFromGit (src/github.ts lines 45-92) -/

/-- First match of `/Merge pull request #(\d+)/`: the literal followed
by a non-empty digit run; on a literal occurrence not followed by a
digit the scan advances one character, as the regex engine does. -/
def findPrRef : List Char → Option Nat
  | [] => none
  | c :: cs =>
      match matchLit "Merge pull request #".toList (c :: cs) with
      | some rest =>
          let ds := rest.takeWhile Char.isDigit
          if 0 < ds.length then some (natOfDigits ds) else findPrRef cs
      | none => findPrRef cs

/-- Attempt of `/Merge pull request #\d+ from [^\x2f]+\x2f(.+)/` at the
head of the input, returning the `(.+)` capture (the rest of the
line). -/
def matchTitleAt (cs : List Char) : Option (List Char) :=
  (matchLit "Merge pull request #".toList cs).bind fun r1 =>
    let ds := r1.takeWhile Char.isDigit
    if ds.isEmpty then none
    else
      (matchLit " from ".toList (r1.dropWhile Char.isDigit)).bind fun r2 =>
        let run := r2.takeWhile (· != '/')
        if run.isEmpty then none
        else
          match r2.dropWhile (· != '/') with
          | '/' :: rest => if rest.isEmpty then none else some rest
          | _ => none

/-- First match of the title-extraction regex anywhere in the line. -/
def findTitle : List Char → Option (List Char)
  | [] => none
  | c :: cs =>
      match matchTitleAt (c :: cs) with
      | some cap => some cap
      | none => findTitle cs

/-- Processing of one line of `git log` output inside the `for` loop of
`collectPRsFromGit`.  `Except.error` models the `TypeError` thrown by
`message.match` when the line has no pipe separator (then `message` is
`undefined`); the JS `undefined` author/date of a short-but-parseable
line is modelled as the empty string.  `ok none` is the `continue`
branch. -/
def parseGitLine (line : String) : Except Unit (Option PullRequest) :=
  match jsSplit '|' line with
  | hash :: message :: restParts =>
      (match findPrRef message.toList with
       | none => .ok none
       | some prNumber =>
           let title :=
             match findTitle message.toList with
             | some cap => String.mk (cap.map (fun c => if c == '-' then ' ' else c))
             | none => message
           .ok (some
             { number := prNumber
               title := title
               body := none
               labels := []
               files := []
               merge_strategy := .merge
               author := restParts.getD 0 ""
               merged_at := restParts.getD 1 ""
               merge_commit_sha := hash }))
  | _ => .error ()

/-- The loop of `collectPRsFromGit` over the filtered lines. -/
def collectGitLoop (prs : List PullRequest) : List String → Except Unit (List PullRequest)
  | [] => .ok prs
  | line :: rest =>
      match parseGitLine line with
      | .error e => .error e
      | .ok none => collectGitLoop prs rest
      | .ok (some pr) => collectGitLoop (prs ++ [pr]) rest

/-- Parsing of the whole `git log` stdout:
`stdout.trim().split('\n').filter(line => line.length > 0)` then the
per-line loop. -/
def collectGitParse (stdout : String) : Except Unit (List PullRequest) :=
  collectGitLoop [] ((jsSplit '\n' (trimJS stdout)).filter (fun l => 0 < l.toList.length))

/-- `collectPRsFromGit`: run the git subprocess (outcome `gitExec`),
parse its stdout; any throw inside the `try` block (subprocess failure
or a malformed line) falls back to `collectPRsFallback` (outcome
`fallbackRes`). -/
def collectPRsFromGit (gitExec : Except Unit String)
    (fallbackRes : Except Unit (List PullRequest)) : Except Unit (List PullRequest) :=
  match gitExec with
  | .error _ => fallbackRes
  | .ok stdout =>
      match collectGitParse stdout with
      | .ok prs => .ok prs
      | .error _ => fallbackRes

/-- `collectPRs` (src/github.ts lines 36-43).  The source skips the
search API entirely (its comment: skip search API entirely, it does
not work for private repos) and goes straight to git-based collection; the
`searchRes` outcome is a parameter only so that the specified
search-first cascade can be stated about this function — the body
never consults it. -/
def collectPRs (searchRes : Except Unit (List PullRequest))
    (gitExec : Except Unit String)
    (fallbackRes : Except Unit (List PullRequest)) : Except Unit (List PullRequest) :=
  let _ := searchRes
  collectPRsFromGit gitExec fallbackRes

/-- Modelled from the spec: the three-path selection policy of §4.1
("attempt path 1; on any error, attempt path 2; on error there,
attempt path 3"), which src/github.ts does not implement (its
`collectPRs` skips the search path).  Kept for comparison with
`collectPRs`. -/
def collectCascadeSpec (searchRes : Except Unit (List PullRequest))
    (gitRes : Except Unit (List PullRequest))
    (listRes : Except Unit (List PullRequest)) : Except Unit (List PullRequest) :=
  match searchRes with
  | .ok prs => .ok prs
  | .error _ =>
      match gitRes with
      | .ok prs => .ok prs
      | .error _ => listRes

/-! ## collectPRsFallback (src/github.ts lines 94-131)

The `octokit.rest.pulls.list` page is the `allPrs` parameter; the
per-PR `getPRFiles` call is the `filesOf` parameter; `getCommit` feeds
`detectMergeStrategy`.  `tsOf` is the numeric value of a date string
(JS `new Date(s)` comparison), and `sinceDate` the cutoff value. -/

/-- One element of the `pulls.list` response, with the optional fields
the source guards (`pr.body || null`, `pr.labels?.map(...)`,
`pr.user?.login`, `pr.merged_at`, `pr.merge_commit_sha`).  A label is
modelled by its extracted name (`none` when the label object has no
name). -/
structure RawPR where
  number : Nat
  title : String
  body : Option String
  labelsRaw : Option (List (Option String))
  userLogin : Option String
  mergedAt : Option String
  mergeCommitSha : Option String
deriving Repr, DecidableEq

/-- JS falsy test on an optional string (`undefined`, `null` or empty). -/
def strFalsy : Option String → Bool
  | none => true
  | some s => jsStrEmpty s

/-- The record pushed by the loop body of `collectPRsFallback`. -/
def fallbackRecord (pr : RawPR) (filesOf : Nat → List FileChange)
    (getCommit : String → Except Unit Commit) : PullRequest :=
  { number := pr.number
    title := pr.title
    body := pr.body.bind (fun s => if jsStrEmpty s then none else some s)
    labels := (pr.labelsRaw.getD []).filterMap id
    files := filesOf pr.number
    merge_strategy :=
      detectMergeStrategy pr.title pr.number (pr.mergeCommitSha.getD "") getCommit
    author := match pr.userLogin with
      | some s => if jsStrEmpty s then "unknown" else s
      | none => "unknown"
    merged_at := pr.mergedAt.getD ""
    merge_commit_sha := pr.mergeCommitSha.getD "" }

/-- The `continue` guard: `!pr.merged_at || new Date(pr.merged_at) < sinceDate`. -/
def fallbackSkips (pr : RawPR) (sinceDate : Nat) (tsOf : String → Nat) : Bool :=
  strFalsy pr.mergedAt ||
    (match pr.mergedAt with
     | some s => tsOf s < sinceDate
     | none => false)

def collectPRsFallback (allPrs : List RawPR) (sinceDate : Nat) (tsOf : String → Nat)
    (filesOf : Nat → List FileChange) (getCommit : String → Except Unit Commit) :
    List PullRequest :=
  allPrs.foldl
    (fun acc pr =>
      if fallbackSkips pr sinceDate tsOf then acc
      else acc ++ [fallbackRecord pr filesOf getCommit])
    []

/-! ## The five-PR reference fixture (`mockPRs`, src/test.ts) -/

def mockPR123 : PullRequest :=
  { number := 123
    title := "Add user authentication system"
    body := some "Implements OAuth2 authentication with Google and GitHub providers. Includes user session management and JWT tokens."
    labels := ["feature", "security"]
    files :=
      [ { path := "src/auth/oauth.ts", status := .added, additions := 150, deletions := 0 }
      , { path := "src/auth/session.ts", status := .added, additions := 80, deletions := 0 }
      , { path := "src/types/user.ts", status := .modified, additions := 20, deletions := 5 } ]
    merge_strategy := .squash
    author := "alice"
    merged_at := "2024-01-15T10:30:00Z"
    merge_commit_sha := "abc123" }

def mockPR124 : PullRequest :=
  { number := 124
    title := "Fix memory leak in data processor"
    body := some "Resolves issue where large datasets would cause memory to grow indefinitely. Added proper cleanup and garbage collection."
    labels := ["bug", "performance"]
    files :=
      [ { path := "src/processor/data.ts", status := .modified, additions := 25, deletions := 10 }
      , { path := "src/processor/cleanup.ts", status := .added, additions := 45, deletions := 0 }
      , { path := "tests/processor.test.ts", status := .modified, additions := 30, deletions := 5 } ]
    merge_strategy := .rebase
    author := "bob"
    merged_at := "2024-01-16T14:20:00Z"
    merge_commit_sha := "def456" }

def mockPR125 : PullRequest :=
  { number := 125
    title := "Update API documentation"
    body := some "Updates documentation for new authentication endpoints and adds examples."
    labels := ["docs"]
    files :=
      [ { path := "docs/api/auth.md", status := .modified, additions := 100, deletions := 20 }
      , { path := "docs/examples/auth-flow.md", status := .added, additions := 50, deletions := 0 }
      , { path := "README.md", status := .modified, additions := 15, deletions := 3 } ]
    merge_strategy := .merge
    author := "charlie"
    merged_at := "2024-01-17T09:15:00Z"
    merge_commit_sha := "ghi789" }

def mockPR126 : PullRequest :=
  { number := 126
    title := "BREAKING: Redesign user API endpoints"
    body := some "Complete overhaul of user management API. This is a breaking change that requires migration."
    labels := ["breaking", "api"]
    files :=
      [ { path := "src/api/users.ts", status := .modified, additions := 200, deletions := 150 }
      , { path := "src/api/types.ts", status := .modified, additions := 50, deletions := 30 }
      , { path := "migrations/v2-user-api.sql", status := .added, additions := 75, deletions := 0 } ]
    merge_strategy := .squash
    author := "diana"
    merged_at := "2024-01-18T16:45:00Z"
    merge_commit_sha := "jkl012" }

def mockPR127 : PullRequest :=
  { number := 127
    title := "Add real-time notifications"
    body := some "Implements WebSocket-based notifications for user actions and system events."
    labels := ["feature", "realtime"]
    files :=
      [ { path := "src/notifications/websocket.ts", status := .added, additions := 120, deletions := 0 }
      , { path := "src/notifications/events.ts", status := .added, additions := 90, deletions := 0 }
      , { path := "src/server.ts", status := .modified, additions := 25, deletions := 5 }
      , { path := "package.json", status := .modified, additions := 3, deletions := 0 } ]
    merge_strategy := .rebase
    author := "eve"
    merged_at := "2024-01-19T11:30:00Z"
    merge_commit_sha := "mno345" }

def mockPRs : List PullRequest :=
  [mockPR123, mockPR124, mockPR125, mockPR126, mockPR127]

/-- A PR carrying both a feature label and a fix label, exercising the
overlap of the fallback bucket filters. -/
def overlapPR : PullRequest :=
  { number := 1, title := "Overlap", body := none, labels := ["feature", "fix"],
    files := [], merge_strategy := .squash, author := "zed",
    merged_at := "2024-01-01T00:00:00Z", merge_commit_sha := "sha1" }

/-! ## Shared lemmas -/

/-- The document template of `formatChangelog` begins with the fixed
top-level heading. -/
lemma formatChangelog_starts (today content : String) :
    ∃ r, formatChangelog today content = "# Changelog" ++ r := by
  refine ⟨"\n\n## [Unreleased] - " ++ (today ++ ("\n\n" ++ (content ++
    "\n\n---\n*Generated by [Changelogger](https://github.com/rohansaibuddhi/changelogger) 🤖*\n"))), ?_⟩
  rw [formatChangelog]
  conv_rhs => rw [← String.append_assoc]
  rw [String.append_assoc, String.append_assoc, String.append_assoc]
  rfl

/-- A string beginning with the fixed heading is nonempty. -/
lemma head_append_ne_empty (r : String) : "# Changelog" ++ r ≠ "" := by
  intro h
  have hl := congrArg String.length h
  rw [String.length_append] at hl
  have h11 : ("# Changelog" : String).length = 11 := rfl
  rw [h11] at hl
  simp at hl

/-- Combination of the two facts above for `formatChangelog`. -/
lemma formatChangelog_props (t c : String) :
    formatChangelog t c ≠ "" ∧ ∃ r, formatChangelog t c = "# Changelog" ++ r := by
  obtain ⟨r, hr⟩ := formatChangelog_starts t c
  exact ⟨hr ▸ head_append_ne_empty r, r, hr⟩

/-- A fold preserves any invariant preserved by its step function. -/
lemma foldl_inv {σ α : Type} (f : σ → α → σ) (P : σ → Prop)
    (hf : ∀ s a, P s → P (f s a)) : ∀ (l : List α) (s : σ), P s → P (l.foldl f s)
  | [], _, h => h
  | a :: l, s, h => foldl_inv f P hf l (f s a) (hf s a h)

/-- Every entry pushed by one `parseChangelogEntries` loop iteration
references the number of a collected PR. -/
lemma parseStep_inv (prs : List PullRequest) (st : EntryType × List ChangelogEntry)
    (line : String)
    (h : ∀ e ∈ st.2, e.pr_number ∈ prs.map PullRequest.number) :
    ∀ e ∈ (parseStep prs st line).2, e.pr_number ∈ prs.map PullRequest.number := by
  intro e he
  unfold parseStep at he
  simp only at he
  split at he
  · rename_i prNumber hfind hstart
    split at he
    · rename_i pr hf
      rcases List.mem_append.mp he with h1 | h2
      · exact h e h1
      · simp at h2
        subst h2
        have hmem : pr ∈ prs := List.mem_of_find?_eq_some hf
        have heq := List.find?_some hf
        exact List.mem_map.mpr ⟨pr, hmem, Nat.eq_of_beq_eq_true (by simpa using heq)⟩
    · exact h e he
  · exact h e he

/-- Every entry output by the line parser references a collected PR. -/
lemma parseChangelogEntries_numbers (content : String) (prs : List PullRequest) :
    ∀ e ∈ parseChangelogEntries content prs, e.pr_number ∈ prs.map PullRequest.number :=
  foldl_inv (parseStep prs)
    (fun st => ∀ e ∈ st.2, e.pr_number ∈ prs.map PullRequest.number)
    (fun st line hst => parseStep_inv prs st line hst)
    (jsSplit '\n' content) (EntryType.internal, []) (by simp)

/-- Entries produced from one fallback bucket reference collected PRs. -/
lemma mapBucket_numbers (prs : List PullRequest) (p : PullRequest → Bool) (t : EntryType) :
    ∀ e ∈ (prs.filter p).map
        (fun pr => (⟨t, pr.title, pr.number, pr.author⟩ : ChangelogEntry)),
      e.pr_number ∈ prs.map PullRequest.number := by
  intro e he
  rcases List.mem_map.mp he with ⟨pr, hpr, rfl⟩
  exact List.mem_map.mpr ⟨pr, List.mem_of_mem_filter hpr, rfl⟩

/-- Every entry of the fallback changelog references a collected PR. -/
lemma fallbackEntries_numbers (prs : List PullRequest) :
    ∀ e ∈ fallbackEntries prs, e.pr_number ∈ prs.map PullRequest.number := by
  intro e he
  unfold fallbackEntries at he
  rcases List.mem_append.mp he with h1 | h4
  · rcases List.mem_append.mp h1 with h2 | h3
    · rcases List.mem_append.mp h2 with h5 | h6
      · exact mapBucket_numbers prs isFeatureBucket .feature e h5
      · exact mapBucket_numbers prs isFixBucket .fix e h6
    · exact mapBucket_numbers prs isDocsBucket .docs e h3
  · exact mapBucket_numbers prs isOtherBucket .internal e h4

/-- The accumulator loop of `collectPRsFallback` equals a filter
followed by a map. -/
lemma collect_fold (sinceDate : Nat) (tsOf : String → Nat)
    (filesOf : Nat → List FileChange) (getCommit : String → Except Unit Commit) :
    ∀ (l : List RawPR) (acc : List PullRequest),
      l.foldl
        (fun acc pr =>
          if fallbackSkips pr sinceDate tsOf then acc
          else acc ++ [fallbackRecord pr filesOf getCommit]) acc =
      acc ++ (l.filter (fun pr => !fallbackSkips pr sinceDate tsOf)).map
        (fun pr => fallbackRecord pr filesOf getCommit) := by
  intro l
  induction l with
  | nil => intro acc; simp
  | cons pr rest ih =>
      intro acc
      simp only [List.foldl_cons, List.filter_cons]
      by_cases h : fallbackSkips pr sinceDate tsOf
      · simp [h, ih]
      · simp [h, ih]

/-- A record parsed from one git-log line carries the fixed degraded
fields of the commit-log collection path. -/
lemma parseGitLine_fields (line : String) (pr : PullRequest)
    (h : parseGitLine line = .ok (some pr)) :
    pr.merge_strategy = .merge ∧ pr.body = none ∧ pr.labels = [] ∧ pr.files = [] := by
  unfold parseGitLine at h
  split at h
  · split at h
    · simp at h
    · simp at h
      subst h
      exact ⟨rfl, rfl, rfl, rfl⟩
  · simp at h

/-- Any per-record property of `parseGitLine` outputs holds of every
record returned by the git-log collection loop. -/
lemma collectGitLoop_inv (P : PullRequest → Prop)
    (hP : ∀ line pr, parseGitLine line = .ok (some pr) → P pr) :
    ∀ (lines : List String) (acc L : List PullRequest),
      (∀ q ∈ acc, P q) → collectGitLoop acc lines = .ok L → ∀ q ∈ L, P q := by
  intro lines
  induction lines with
  | nil =>
      intro acc L hacc h
      simp only [collectGitLoop] at h
      cases h
      exact hacc
  | cons line rest ih =>
      intro acc L hacc h
      simp only [collectGitLoop] at h
      split at h
      · exact absurd h (by simp)
      · exact ih acc L hacc h
      · rename_i pr hline
        refine ih (acc ++ [pr]) L ?_ h
        intro q hq
        rcases List.mem_append.mp hq with h1 | h2
        · exact hacc q h1
        · simp at h2
          subst h2
          exact hP line q hline

/-! ## Claim theorems -/

/-- C1: for every non-empty list of PR records, `generateChangelogWithAnalysis`
always returns a result (the embedding is a total function over every model
call outcome, so no exception escapes) whose changelog markdown is non-empty
and begins with the fixed top-level heading, whether the model call fails,
succeeds with parsable JSON, or returns unparsable text. -/
theorem generateChangelogWithAnalysis_nonempty_heading
    (prs : List PullRequest) (today : String) (call : ModelCall) (h : prs ≠ []) :
    (generateChangelogWithAnalysis prs today call).changelog ≠ "" ∧
      ∃ r, (generateChangelogWithAnalysis prs today call).changelog =
        "# Changelog" ++ r := by
  have hlen : ¬ prs.length = 0 := fun hh => h (List.length_eq_zero.mp hh)
  unfold generateChangelogWithAnalysis
  rw [if_neg hlen]
  cases call with
  | failure => exact formatChangelog_props today (fallbackBody prs)
  | response parsed =>
      cases parsed with
      | none => exact formatChangelog_props today (fallbackBody prs)
      | some p => exact formatChangelog_props today (p.changelog.getD "")

/-- C1 witness: the heading property evaluated on the five-PR fixture with a
failing model call. -/
theorem generateChangelogWithAnalysis_nonempty_heading_witness :
    mockPRs ≠ [] ∧
      ((generateChangelogWithAnalysis mockPRs "2024-01-20" .failure).changelog ≠ "" ∧
        ∃ r, (generateChangelogWithAnalysis mockPRs "2024-01-20" .failure).changelog =
          "# Changelog" ++ r) :=
  ⟨by decide,
   generateChangelogWithAnalysis_nonempty_heading mockPRs "2024-01-20" .failure
     (by decide)⟩

/-- C2 counterexample: a single PR labeled both `feature` and `fix` yields two
entries on the model-failure path, so the claimed first-match-wins assignment
of each PR to exactly one bucket does not hold. -/
theorem fallback_buckets_overlap_counterexample :
    (generateChangelogWithAnalysis [overlapPR] "2024-01-20" .failure).entries =
      [⟨EntryType.feature, "Overlap", 1, "zed"⟩, ⟨EntryType.fix, "Overlap", 1, "zed"⟩] ∧
    [overlapPR].length = 1 := by decide

/-- C2 amended: on the model-failure path the entries are the concatenation of
the four keyword-filter buckets — a PR matching several bucket filters
contributes one entry per matching bucket, and the other bucket collects the
PRs matching none — while the drift fields equal the output of the heuristic
drift analyzer applied independently to the same PR list. -/
theorem failure_path_is_fallback_and_drift (prs : List PullRequest) (today : String) :
    (generateChangelogWithAnalysis prs today .failure).entries = fallbackEntries prs ∧
    (generateChangelogWithAnalysis prs today .failure).driftWarnings =
      (performHeuristicDriftDetection prs).warnings ∧
    (generateChangelogWithAnalysis prs today .failure).suggestions =
      (performHeuristicDriftDetection prs).suggestions ∧
    (generateChangelogWithAnalysis prs today .failure).hasBreakingChanges =
      (performHeuristicDriftDetection prs).hasBreakingChanges := by
  match prs with
  | [] => exact ⟨rfl, rfl, rfl, rfl⟩
  | p :: ps =>
      have hlen : ¬ (p :: ps).length = 0 := by simp
      unfold generateChangelogWithAnalysis
      rw [if_neg hlen]
      exact ⟨rfl, rfl, rfl, rfl⟩

/-- C3 counterexample: a successfully parsed model response whose entry
references PR 999 is returned verbatim by `generateChangelogWithAnalysis`
even though no collected PR has number 999 — the enhanced JSON path performs
no unknown-number filtering. -/
theorem parsed_entries_not_filtered_counterexample :
    (generateChangelogWithAnalysis [mockPR123] "2024-01-20"
        (.response (some
          { changelog := some "## 🚀 Features\n- Ghost entry (#999)"
            entries := some [⟨EntryType.feature, "Ghost entry", 999, "nobody"⟩]
            driftWarnings := some []
            suggestions := some []
            hasBreakingChanges := some false }))).entries =
      [⟨EntryType.feature, "Ghost entry", 999, "nobody"⟩] ∧
    999 ∉ [mockPR123].map PullRequest.number := by decide

/-- C3 amended: in the basic `generateChangelog` path every returned entry
references the number of a PR present in the input list — the line parser
drops entries whose `(#N)` reference matches no collected PR, and the
fallback and empty-input paths only ever emit collected PR numbers.  (The
enhanced JSON path of `generateChangelogWithAnalysis` keeps parsed entries
verbatim, as the counterexample shows.) -/
theorem generateChangelog_entries_reference_input
    (prs : List PullRequest) (today : String) (call : BasicModelCall)
    (e : ChangelogEntry) (he : e ∈ (generateChangelog prs today call).entries) :
    e.pr_number ∈ prs.map PullRequest.number := by
  unfold generateChangelog at he
  by_cases h0 : prs.length = 0
  · rw [if_pos h0] at he
    simp at he
  · rw [if_neg h0] at he
    cases call with
    | failure => exact fallbackEntries_numbers prs e he
    | response content => exact parseChangelogEntries_numbers content prs e he

/-- C3 witness: a concrete parsed entry for PR 123 of the fixture indeed
references a collected PR number. -/
theorem generateChangelog_entries_reference_input_witness :
    (⟨EntryType.feature, "Something cool (#123)", 123, "alice"⟩ : ChangelogEntry) ∈
      (generateChangelog mockPRs "2024-01-20"
        (.response "## 🚀 Features\n- Something cool (#123)")).entries ∧
    (123 : Nat) ∈ mockPRs.map PullRequest.number :=
  ⟨by decide,
   generateChangelog_entries_reference_input mockPRs "2024-01-20"
     (.response "## 🚀 Features\n- Something cool (#123)")
     ⟨EntryType.feature, "Something cool (#123)", 123, "alice"⟩ (by decide)⟩

/-- C4 counterexample: with a successful search outcome but failing git-log
and listing outcomes, `collectPRs` still fails — the search-based strategy is
never attempted, refuting the claimed three-strategy cascade. -/
theorem collectPRs_skips_search_counterexample :
    collectPRs (.ok [mockPR123]) (.error ()) (.error ()) = .error () := rfl

/-- C4 amended: `collectPRs` ignores the search outcome entirely and attempts
the commit-log scan first; when the git subprocess succeeds and its output
parses, that result is returned; on a subprocess error or a parse throw the
full-listing outcome is returned as-is, so the run fails exactly when the
attempted git path fails and the listing outcome is an error. -/
theorem collectPRs_two_strategy_cascade
    (s t : Except Unit (List PullRequest)) (g : Except Unit String)
    (l : Except Unit (List PullRequest)) :
    collectPRs s g l = collectPRs t g l ∧
    (∀ stdout prs, g = .ok stdout → collectGitParse stdout = .ok prs →
      collectPRs s g l = .ok prs) ∧
    (∀ e, g = .error e → collectPRs s g l = l) ∧
    (∀ stdout e, g = .ok stdout → collectGitParse stdout = .error e →
      collectPRs s g l = l) := by
  refine ⟨rfl, ?_, ?_, ?_⟩
  · intro stdout prs hg hp
    simp [collectPRs, collectPRsFromGit, hg, hp]
  · intro e hg
    simp [collectPRs, collectPRsFromGit, hg]
  · intro stdout e hg hp
    simp [collectPRs, collectPRsFromGit, hg, hp]

/-- C4 witness: the cascade theorem applied to an empty git log (success with
zero PRs) and to a git failure falling through to a successful listing. -/
theorem collectPRs_two_strategy_cascade_witness :
    collectPRs (.error ()) (.ok "") (.error ()) = .ok [] ∧
    collectPRs (.error ()) (.error ()) (.ok []) = .ok [] :=
  ⟨(collectPRs_two_strategy_cascade (.error ()) (.error ()) (.ok "") (.error ())).2.1
     "" [] rfl rfl,
   (collectPRs_two_strategy_cascade (.error ()) (.error ()) (.error ()) (.ok [])).2.2.1
     () rfl⟩

/-- C5 counterexample: on the five-PR reference fixture the heuristic-fallback
path flags API changes with count 2 (both PR 125, whose title mentions the
API and whose body mentions endpoints, and PR 126), not count 1 as claimed. -/
theorem fixture_api_warning_count_counterexample :
    (generateChangelogWithAnalysis mockPRs "2024-01-20" .failure).driftWarnings =
      ["2 PRs modify APIs - documentation may need updates",
       "1 PRs contain breaking changes"] ∧
    "1 PRs modify APIs - documentation may need updates" ∉
      (generateChangelogWithAnalysis mockPRs "2024-01-20" .failure).driftWarnings := by
  decide

/-- C5 amended: on the five-PR reference fixture the heuristic-fallback path
produces warnings flagging API changes with count 2 and breaking changes with
count 1, sets `hasBreakingChanges`, and partitions the five entries as
feature: 123 and 127, fix: 124, docs: 125, other: 126. -/
theorem fixture_fallback_outcome :
    (generateChangelogWithAnalysis mockPRs "2024-01-20" .failure).hasBreakingChanges =
      true ∧
    (generateChangelogWithAnalysis mockPRs "2024-01-20" .failure).driftWarnings =
      ["2 PRs modify APIs - documentation may need updates",
       "1 PRs contain breaking changes"] ∧
    (generateChangelogWithAnalysis mockPRs "2024-01-20" .failure).suggestions =
      ["Update API documentation and examples to reflect changes",
       "Add migration guide and update version compatibility documentation"] ∧
    (generateChangelogWithAnalysis mockPRs "2024-01-20" .failure).entries =
      [⟨EntryType.feature, "Add user authentication system", 123, "alice"⟩,
       ⟨EntryType.feature, "Add real-time notifications", 127, "eve"⟩,
       ⟨EntryType.fix, "Fix memory leak in data processor", 124, "bob"⟩,
       ⟨EntryType.docs, "Update API documentation", 125, "charlie"⟩,
       ⟨EntryType.internal, "BREAKING: Redesign user API endpoints", 126, "diana"⟩] := by
  decide

/-- C6: merge-strategy classification returns squash when the merge commit id
is missing or the commit fetch errors; with one parent it returns squash when
the commit message contains the PR title or its numeric reference and rebase
otherwise; with two parents it returns merge; any other parent count returns
squash. -/
theorem detectMergeStrategy_classification (title : String) (n : Nat) (sha : String)
    (get : String → Except Unit Commit) :
    (jsStrEmpty sha = true → detectMergeStrategy title n sha get = .squash) ∧
    (∀ e, get sha = .error e → detectMergeStrategy title n sha get = .squash) ∧
    (∀ c, jsStrEmpty sha = false → get sha = .ok c → c.parents.length = 1 →
      (hasSub c.message title || hasSub c.message ("#" ++ toString n)) = true →
      detectMergeStrategy title n sha get = .squash) ∧
    (∀ c, jsStrEmpty sha = false → get sha = .ok c → c.parents.length = 1 →
      (hasSub c.message title || hasSub c.message ("#" ++ toString n)) = false →
      detectMergeStrategy title n sha get = .rebase) ∧
    (∀ c, jsStrEmpty sha = false → get sha = .ok c → c.parents.length = 2 →
      detectMergeStrategy title n sha get = .merge) ∧
    (∀ c, jsStrEmpty sha = false → get sha = .ok c → c.parents.length ≠ 1 →
      c.parents.length ≠ 2 → detectMergeStrategy title n sha get = .squash) := by
  refine ⟨?_, ?_, ?_, ?_, ?_, ?_⟩
  · intro h
    simp [detectMergeStrategy, h]
  · intro e hg
    unfold detectMergeStrategy
    by_cases h : jsStrEmpty sha
    · simp [h]
    · simp [h, hg]
  · intro c h hg h1 hm
    simp [detectMergeStrategy, h, hg, h1, hm]
  · intro c h hg h1 hm
    simp [detectMergeStrategy, h, hg, h1, hm]
  · intro c h hg h2
    have h1 : c.parents.length ≠ 1 := by omega
    simp [detectMergeStrategy, h, hg, h1, h2]
  · intro c h hg h1 h2
    simp [detectMergeStrategy, h, hg, h1, h2]

/-- C6 witness: one concrete evaluation per classification branch. -/
theorem detectMergeStrategy_classification_witness :
    detectMergeStrategy "T" 5 "" (fun _ => .ok ⟨["p1", "p2"], "m"⟩) = .squash ∧
    detectMergeStrategy "T" 5 "a" (fun _ => .error ()) = .squash ∧
    detectMergeStrategy "T" 5 "a" (fun _ => .ok ⟨["p1"], "squashed T commit"⟩) = .squash ∧
    detectMergeStrategy "T" 5 "a" (fun _ => .ok ⟨["p1"], "unrelated"⟩) = .rebase ∧
    detectMergeStrategy "T" 5 "a" (fun _ => .ok ⟨["p1", "p2"], "m"⟩) = .merge ∧
    detectMergeStrategy "T" 5 "a" (fun _ => .ok ⟨["p1", "p2", "p3"], "m"⟩) = .squash :=
  ⟨(detectMergeStrategy_classification "T" 5 "" (fun _ => .ok ⟨["p1", "p2"], "m"⟩)).1 rfl,
   (detectMergeStrategy_classification "T" 5 "a" (fun _ => .error ())).2.1 () rfl,
   (detectMergeStrategy_classification "T" 5 "a"
      (fun _ => .ok ⟨["p1"], "squashed T commit"⟩)).2.2.1
     ⟨["p1"], "squashed T commit"⟩ rfl rfl rfl (by decide),
   (detectMergeStrategy_classification "T" 5 "a"
      (fun _ => .ok ⟨["p1"], "unrelated"⟩)).2.2.2.1
     ⟨["p1"], "unrelated"⟩ rfl rfl rfl (by decide),
   (detectMergeStrategy_classification "T" 5 "a"
      (fun _ => .ok ⟨["p1", "p2"], "m"⟩)).2.2.2.2.1
     ⟨["p1", "p2"], "m"⟩ rfl rfl rfl,
   (detectMergeStrategy_classification "T" 5 "a"
      (fun _ => .ok ⟨["p1", "p2", "p3"], "m"⟩)).2.2.2.2.2
     ⟨["p1", "p2", "p3"], "m"⟩ rfl rfl (by decide) (by decide)⟩

/-- C7: when a JSON object is successfully parsed from the model response,
each absent field defaults independently — entries, driftWarnings and
suggestions to the empty sequence and hasBreakingChanges to false — while
every field present in the parsed JSON is kept, so a response missing some
fields is never discarded wholesale. -/
theorem parseEnhancedResponse_field_defaulting
    (p : ParsedResponse) (prs : List PullRequest) (today : String) :
    (∀ es, p.entries = some es →
      (parseEnhancedResponse (some p) prs today).entries = es) ∧
    (p.entries = none → (parseEnhancedResponse (some p) prs today).entries = []) ∧
    (∀ ws, p.driftWarnings = some ws →
      (parseEnhancedResponse (some p) prs today).driftWarnings = ws) ∧
    (p.driftWarnings = none →
      (parseEnhancedResponse (some p) prs today).driftWarnings = []) ∧
    (∀ ss, p.suggestions = some ss →
      (parseEnhancedResponse (some p) prs today).suggestions = ss) ∧
    (p.suggestions = none → (parseEnhancedResponse (some p) prs today).suggestions = []) ∧
    (∀ b, p.hasBreakingChanges = some b →
      (parseEnhancedResponse (some p) prs today).hasBreakingChanges = b) ∧
    (p.hasBreakingChanges = none →
      (parseEnhancedResponse (some p) prs today).hasBreakingChanges = false) := by
  refine ⟨?_, ?_, ?_, ?_, ?_, ?_, ?_, ?_⟩ <;>
    · intros
      simp [parseEnhancedResponse, *]

/-- C7 witness: a parsed response with entries and suggestions present but
driftWarnings and hasBreakingChanges absent keeps the present fields and
defaults the absent ones. -/
theorem parseEnhancedResponse_field_defaulting_witness :
    (parseEnhancedResponse (some
      { changelog := none
        entries := some [⟨EntryType.fix, "patched", 7, "kim"⟩]
        driftWarnings := none
        suggestions := some ["note"]
        hasBreakingChanges := none }) [] "2024-01-20").entries =
      [⟨EntryType.fix, "patched", 7, "kim"⟩] ∧
    (parseEnhancedResponse (some
      { changelog := none
        entries := some [⟨EntryType.fix, "patched", 7, "kim"⟩]
        driftWarnings := none
        suggestions := some ["note"]
        hasBreakingChanges := none }) [] "2024-01-20").driftWarnings = [] ∧
    (parseEnhancedResponse (some
      { changelog := none
        entries := some [⟨EntryType.fix, "patched", 7, "kim"⟩]
        driftWarnings := none
        suggestions := some ["note"]
        hasBreakingChanges := none }) [] "2024-01-20").suggestions = ["note"] ∧
    (parseEnhancedResponse (some
      { changelog := none
        entries := some [⟨EntryType.fix, "patched", 7, "kim"⟩]
        driftWarnings := none
        suggestions := some ["note"]
        hasBreakingChanges := none }) [] "2024-01-20").hasBreakingChanges = false :=
  ⟨(parseEnhancedResponse_field_defaulting _ [] "2024-01-20").1 _ rfl,
   (parseEnhancedResponse_field_defaulting _ [] "2024-01-20").2.2.2.1 rfl,
   (parseEnhancedResponse_field_defaulting _ [] "2024-01-20").2.2.2.2.1 _ rfl,
   (parseEnhancedResponse_field_defaulting _ [] "2024-01-20").2.2.2.2.2.2.2 rfl⟩

/-- C8: on the empty input list `generateChangelogWithAnalysis` returns the
fixed no-changes document with empty entries and an empty drift report, and
the result does not depend on the model call outcome (no model call is
made). -/
theorem generateChangelogWithAnalysis_empty_input (today : String) (call : ModelCall) :
    generateChangelogWithAnalysis [] today call =
      { changelog := "# Changelog\n\nNo changes found for this release."
        entries := [], driftWarnings := [], suggestions := []
        hasBreakingChanges := false } ∧
    ∀ other, generateChangelogWithAnalysis [] today call =
      generateChangelogWithAnalysis [] today other :=
  ⟨rfl, fun _ => rfl⟩

/-- C9: the full-listing scan equals a filter keeping exactly the listed PRs
whose merge timestamp is present, non-empty and at or after the cutoff,
followed by the enrichment map; a PR is kept iff such a timestamp exists, and
every returned record carries the per-file detail of `filesOf` and the merge
strategy inferred by `detectMergeStrategy` on its own title, number and merge
commit id. -/
theorem collectPRsFallback_filter_enrich (allPrs : List RawPR) (sinceDate : Nat)
    (tsOf : String → Nat) (filesOf : Nat → List FileChange)
    (getCommit : String → Except Unit Commit) :
    collectPRsFallback allPrs sinceDate tsOf filesOf getCommit =
      (allPrs.filter (fun pr => !fallbackSkips pr sinceDate tsOf)).map
        (fun pr => fallbackRecord pr filesOf getCommit) ∧
    (∀ pr : RawPR, (!fallbackSkips pr sinceDate tsOf) = true ↔
      ∃ s, pr.mergedAt = some s ∧ jsStrEmpty s = false ∧ sinceDate ≤ tsOf s) ∧
    (∀ q ∈ collectPRsFallback allPrs sinceDate tsOf filesOf getCommit,
      q.files = filesOf q.number ∧
      q.merge_strategy = detectMergeStrategy q.title q.number q.merge_commit_sha getCommit) := by
  have hfold : collectPRsFallback allPrs sinceDate tsOf filesOf getCommit =
      (allPrs.filter (fun pr => !fallbackSkips pr sinceDate tsOf)).map
        (fun pr => fallbackRecord pr filesOf getCommit) := by
    simpa [collectPRsFallback] using
      collect_fold sinceDate tsOf filesOf getCommit allPrs []
  refine ⟨hfold, ?_, ?_⟩
  · intro pr
    unfold fallbackSkips strFalsy
    cases hm : pr.mergedAt with
    | none => simp
    | some s =>
        simp only [hm]
        simp [Nat.not_lt]
  · intro q hq
    rw [hfold] at hq
    rcases List.mem_map.mp hq with ⟨pr, _, rfl⟩
    exact ⟨rfl, rfl⟩

/-- C9 witness: on a two-element listing where the first PR has a null merge
timestamp and the second a timestamp past the cutoff, exactly the second is
returned, enriched with files and an inferred merge strategy. -/
theorem collectPRsFallback_filter_enrich_witness :
    ({ number := 2, title := "B", body := none, labels := ["x"], files := [],
       merge_strategy := .merge, author := "lee", merged_at := "2024",
       merge_commit_sha := "s2" } : PullRequest) ∈
      collectPRsFallback
        [{ number := 1, title := "A", body := none, labelsRaw := none,
           userLogin := none, mergedAt := none, mergeCommitSha := none },
         { number := 2, title := "B", body := some "", labelsRaw := some [some "x", none],
           userLogin := some "lee", mergedAt := some "2024", mergeCommitSha := some "s2" }]
        3 (fun s => s.toList.length) (fun _ => [])
        (fun _ => .ok ⟨["p1", "p2"], "m"⟩) ∧
    ({ number := 2, title := "B", body := none, labels := ["x"], files := [],
       merge_strategy := .merge, author := "lee", merged_at := "2024",
       merge_commit_sha := "s2" } : PullRequest).files = (fun _ => ([] : List FileChange)) 2 ∧
    ({ number := 2, title := "B", body := none, labels := ["x"], files := [],
       merge_strategy := .merge, author := "lee", merged_at := "2024",
       merge_commit_sha := "s2" } : PullRequest).merge_strategy =
      detectMergeStrategy "B" 2 "s2" (fun _ => .ok ⟨["p1", "p2"], "m"⟩) :=
  ⟨by decide,
   ((collectPRsFallback_filter_enrich
      [{ number := 1, title := "A", body := none, labelsRaw := none,
         userLogin := none, mergedAt := none, mergeCommitSha := none },
       { number := 2, title := "B", body := some "", labelsRaw := some [some "x", none],
         userLogin := some "lee", mergedAt := some "2024", mergeCommitSha := some "s2" }]
      3 (fun s => s.toList.length) (fun _ => [])
      (fun _ => .ok ⟨["p1", "p2"], "m"⟩)).2.2
    { number := 2, title := "B", body := none, labels := ["x"], files := [],
      merge_strategy := .merge, author := "lee", merged_at := "2024",
      merge_commit_sha := "s2" } (by decide))⟩

/-- C10: every PR record produced by the commit-log collection path has its
merge strategy fixed to merge, a null body, no labels and no files — the
merge-strategy classifier is never invoked on this path, so no record of it
is ever classified squash or rebase. -/
theorem collectGitParse_degraded_records (stdout : String) (L : List PullRequest)
    (h : collectGitParse stdout = .ok L) (p : PullRequest) (hp : p ∈ L) :
    p.merge_strategy = .merge ∧ p.body = none ∧ p.labels = [] ∧ p.files = [] :=
  collectGitLoop_inv
    (fun q => q.merge_strategy = .merge ∧ q.body = none ∧ q.labels = [] ∧ q.files = [])
    (fun line pr hl => parseGitLine_fields line pr hl)
    ((jsSplit '\n' (trimJS stdout)).filter (fun l => 0 < l.toList.length))
    [] L (by simp) h p hp

/-- C10 witness: a concrete one-line git log yields a single record with the
degraded fields. -/
theorem collectGitParse_degraded_records_witness :
    collectGitParse "abc|Merge pull request #12 from alice/add-stuff|alice|2024" =
      .ok [{ number := 12, title := "add stuff", body := none, labels := [], files := [],
             merge_strategy := .merge, author := "alice", merged_at := "2024",
             merge_commit_sha := "abc" }] ∧
    ({ number := 12, title := "add stuff", body := none, labels := [], files := [],
       merge_strategy := .merge, author := "alice", merged_at := "2024",
       merge_commit_sha := "abc" } : PullRequest).merge_strategy = .merge :=
  ⟨rfl,
   (collectGitParse_degraded_records
      "abc|Merge pull request #12 from alice/add-stuff|alice|2024"
      [{ number := 12, title := "add stuff", body := none, labels := [], files := [],
         merge_strategy := .merge, author := "alice", merged_at := "2024",
         merge_commit_sha := "abc" }] rfl
      { number := 12, title := "add stuff", body := none, labels := [], files := [],
        merge_strategy := .merge, author := "alice", merged_at := "2024",
        merge_commit_sha := "abc" } (by simp)).1⟩
